import Mathlib

/-!
Verification of the relay/multiplexer in `src/index.js` (lines 379-468:
`connectToTermux` and the `io.on('connection')` handlers), together with
the payload constructions of the embedded browser frontend
(lines 258-263 and 299-318, 356).

The relay is event-driven JavaScript; we embed it shallowly as pure
transition functions on an explicit `RelayState`, each returning the new
state together with the list of emissions (`socket.emit`,
`termuxSocket.emit`, `io.emit` broadcast, `socket.disconnect()`) the
handler performs, in order.
-/

/-- Primitive JavaScript values appearing as fields of the relay's event
payloads. -/
inductive JsPrim : Type
  | undef : JsPrim
  | str : String → JsPrim
  | num : Int → JsPrim
  | bool : Bool → JsPrim
deriving DecidableEq, Repr

/-- JavaScript values as they appear in the relay's event payloads:
`undefined`, primitives, and plain objects (ordered field lists).
Every payload this program constructs or inspects is either a
primitive or a flat object of primitive fields, so object fields are
primitives. -/
inductive JsVal : Type
  | undef : JsVal
  | str : String → JsVal
  | num : Int → JsVal
  | bool : Bool → JsVal
  | obj : List (String × JsPrim) → JsVal
deriving DecidableEq, Repr

/-- Field lookup `v.k` on a defined receiver: the field's value when `v`
is an object that has field `k`, `undefined` otherwise (JavaScript boxes
primitive receivers, which then have no such property). Property access
on an `undefined` receiver throws a TypeError instead — that full access
is `jsGetProp`; `getField` is its defined-receiver fragment. -/
def getField : JsVal → String → JsPrim
  | JsVal.obj fs, k =>
    match fs.lookup k with
    | some v => v
    | none => JsPrim.undef
  | _, _ => JsPrim.undef

/-- JavaScript property access `v.k` in full: evaluating it on an
`undefined` receiver throws a TypeError (modelled as `Except.error ()`);
on any defined receiver it yields `getField`'s value. -/
def jsGetProp : JsVal → String → Except Unit JsPrim
  | JsVal.undef, _ => Except.error ()
  | JsVal.obj fs, k =>
    Except.ok (match fs.lookup k with
      | some v => v
      | none => JsPrim.undef)
  | _, _ => Except.ok JsPrim.undef

/-- The field names of an object payload, in order (`Object.keys`). -/
def payloadKeys : JsVal → List String
  | JsVal.obj fs => fs.map Prod.fst
  | _ => []

/-- `const PASSWORD = '123456789'` (src/index.js line 13). -/
def PASSWORD : String := "123456789"

/-- One emission performed by a relay handler. -/
inductive Emit : Type
  | toClient (cid : String) (event : String) (payload : JsVal) : Emit
  | toUpstream (event : String) (payload : JsVal) : Emit
  | disconnectClient (cid : String) : Emit
deriving DecidableEq, Repr

/-- The relay's mutable state, from src/index.js:
`openConnections` is the set of currently-open downstream socket ids
held by the socket.io server `io`; `authenticatedClients` is the
`Set` of line 17; `termuxStarted` records whether `termuxSocket`
(line 16) has been assigned by `connectToTermux`; `termuxConnected`
is `termuxSocket.connected`. JavaScript `Set`s are modelled as
duplicate-free lists via `setAdd`/`setDelete`. -/
structure RelayState : Type where
  openConnections : List String
  authenticatedClients : List String
  termuxStarted : Bool
  termuxConnected : Bool
deriving DecidableEq, Repr

/-- `Set.prototype.add`: idempotent insertion. -/
def setAdd (s : List String) (x : String) : List String :=
  if x ∈ s then s else x :: s

/-- `Set.prototype.delete`: removal of every occurrence. -/
def setDelete (s : List String) (x : String) : List String :=
  s.filter (fun y => y ≠ x)

/-- `io.emit(event, payload)`: one `socket.emit` to every currently-open
downstream connection, authenticated or not. -/
def broadcast (st : RelayState) (event : String) (payload : JsVal) : List Emit :=
  st.openConnections.map (fun cid => Emit.toClient cid event payload)

/-- `socket.on('authenticate')` (src/index.js lines 407-416). The handler
first evaluates `data.password` (line 408); when `data` is `undefined`
that evaluation throws an uncaught TypeError before anything is emitted
(`Except.error ()`). Otherwise, if it equals `PASSWORD` the socket id is
added to `authenticatedClients` and `auth_success` is emitted; otherwise
`auth_failed` with message `Invalid password` is emitted and the socket
is disconnected. -/
def handleAuthenticate (st : RelayState) (cid : String) (data : JsVal) :
    Except Unit (RelayState × List Emit) :=
  match jsGetProp data "password" with
  | Except.error e => Except.error e
  | Except.ok p =>
    if p = JsPrim.str PASSWORD then
      Except.ok
        ({ st with authenticatedClients := setAdd st.authenticatedClients cid },
         [Emit.toClient cid "auth_success" JsVal.undef])
    else
      Except.ok
        (st,
         [Emit.toClient cid "auth_failed" (JsVal.obj [("message", JsPrim.str "Invalid password")]),
          Emit.disconnectClient cid])

/-- Shared body of the five control-event handlers (src/index.js lines
418-451): `if (!authenticatedClients.has(socket.id)) return;` then
`if (termuxSocket && termuxSocket.connected) termuxSocket.emit(event, data);`.
The payload `data` is never inspected, only passed through. -/
def forwardControl (event : String) (st : RelayState) (cid : String) (data : JsVal) :
    RelayState × List Emit :=
  if ¬ (cid ∈ st.authenticatedClients) then (st, [])
  else if st.termuxStarted && st.termuxConnected then
    (st, [Emit.toUpstream event data])
  else (st, [])

/-- `socket.on('new_session')` (src/index.js lines 418-423). -/
def handleNewSession : RelayState → String → JsVal → RelayState × List Emit :=
  forwardControl "new_session"

/-- `socket.on('input')` (src/index.js lines 425-430). -/
def handleInput : RelayState → String → JsVal → RelayState × List Emit :=
  forwardControl "input"

/-- `socket.on('resize')` (src/index.js lines 432-437). -/
def handleResize : RelayState → String → JsVal → RelayState × List Emit :=
  forwardControl "resize"

/-- `socket.on('signal')` (src/index.js lines 439-444). -/
def handleSignal : RelayState → String → JsVal → RelayState × List Emit :=
  forwardControl "signal"

/-- `socket.on('close_session')` (src/index.js lines 446-451). -/
def handleCloseSession : RelayState → String → JsVal → RelayState × List Emit :=
  forwardControl "close_session"

/-- `socket.on('disconnect')` (src/index.js lines 453-456) together with
the transport-level removal of the closed socket from the socket.io
server: the id leaves `authenticatedClients` and the open set. No
emission is performed. -/
def handleDisconnect (st : RelayState) (cid : String) : RelayState :=
  { st with
    openConnections := setDelete st.openConnections cid,
    authenticatedClients := setDelete st.authenticatedClients cid }

/-- `termuxSocket.on('connect')` (src/index.js lines 388-391): the
upstream link becomes connected and `backend_status { connected: true }`
is broadcast via `io.emit` to every open downstream connection. -/
def handleTermuxConnect (st : RelayState) : RelayState × List Emit :=
  ({ st with termuxConnected := true },
   broadcast st "backend_status" (JsVal.obj [("connected", JsPrim.bool true)]))

/-- `termuxSocket.on('disconnect')` (src/index.js lines 393-396): the
upstream link becomes disconnected and `backend_status { connected: false }`
is broadcast via `io.emit` to every open downstream connection. -/
def handleTermuxDisconnect (st : RelayState) : RelayState × List Emit :=
  ({ st with termuxConnected := false },
   broadcast st "backend_status" (JsVal.obj [("connected", JsPrim.bool false)]))

/-- `termuxSocket.on('output')` (src/index.js lines 398-400):
`io.emit('output', data)` — the payload is re-broadcast verbatim to
every currently-open downstream connection; no relay state changes. -/
def handleTermuxOutput (st : RelayState) (data : JsVal) : RelayState × List Emit :=
  (st, broadcast st "output" data)

/-- Payload the embedded frontend emits with `new_session`
(src/index.js line 318): `{ session_id: sessionId }`. -/
def newSessionPayload (sid : String) : JsVal :=
  JsVal.obj [("session_id", JsPrim.str sid)]

/-- Payload the embedded frontend emits with `input`
(src/index.js line 303): `{ session_id: sessionId, data: data }`. -/
def inputPayload (sid : String) (d : String) : JsVal :=
  JsVal.obj [("session_id", JsPrim.str sid), ("data", JsPrim.str d)]

/-- Payload the embedded frontend emits with `resize`
(src/index.js lines 309-313): `{ session_id, rows, cols }`. -/
def resizePayload (sid : String) (rows cols : Int) : JsVal :=
  JsVal.obj [("session_id", JsPrim.str sid), ("rows", JsPrim.num rows),
             ("cols", JsPrim.num cols)]

/-- Payload the embedded frontend emits with `signal` on Ctrl-C
(src/index.js line 301): `{ session_id: sessionId, signal: 2 }`. -/
def signalPayload (sid : String) : JsVal :=
  JsVal.obj [("session_id", JsPrim.str sid), ("signal", JsPrim.num 2)]

/-- Payload the embedded frontend emits with `close_session`
(src/index.js line 356): `{ session_id: sessionId }`. -/
def closeSessionPayload (sid : String) : JsVal :=
  JsVal.obj [("session_id", JsPrim.str sid)]

/-- An `output` payload as the frontend expects it
(src/index.js lines 258-263): `{ session_id, data }`. -/
def outputPayload (sid : String) (d : String) : JsVal :=
  JsVal.obj [("session_id", JsPrim.str sid), ("data", JsPrim.str d)]

/-- The session identifier the frontend's `output` handler reads from an
incoming payload (src/index.js line 259: `terminals[data.session_id]`). -/
def frontendOutputLookup (data : JsVal) : JsPrim :=
  getField data "session_id"

/-- Modelled from the spec: the Session Registry of spec §4.4
(`add(sessionId)` on `new_session`, per the §4.3 table entry
"registers sessionId in Session Registry"). The source relay
(src/index.js lines 418-423, 446-451) contains no such registry;
this definition follows the spec's words only so that the source
behaviour can be compared against it. -/
def specRegistryAdd (reg : List String) (sid : String) : List String :=
  setAdd reg sid

/-- Modelled from the spec: `remove(sessionId)` of spec §4.4, performed
on `close_session` per the §4.3 table. Absent from the source. -/
def specRegistryRemove (reg : List String) (sid : String) : List String :=
  setDelete reg sid

/-- Modelled from the spec: `has(sessionId)` of spec §4.4. -/
def specRegistryHas (reg : List String) (sid : String) : Bool :=
  sid ∈ reg

/-- Whether any component of the relay state records the string `s`:
the relay state has only the two string-set fields, so this is the
strongest sense in which the relay could have "registered" `s`. -/
def stateMentions (st : RelayState) (s : String) : Bool :=
  st.openConnections.contains s || st.authenticatedClients.contains s

/-- Number of `toClient` emissions in `es` delivering event `ev` with
payload `p` to connection `cid`. -/
def countDelivery (es : List Emit) (cid : String) (ev : String) (p : JsVal) : Nat :=
  es.count (Emit.toClient cid ev p)

example : getField (inputPayload "s1" "ls") "session_id" = JsPrim.str "s1" := by decide
example : (handleInput ⟨["A"], ["A"], true, true⟩ "A" (inputPayload "s1" "ls")).2
    = [Emit.toUpstream "input" (inputPayload "s1" "ls")] := by decide
example : (handleTermuxOutput ⟨["A", "U"], ["A"], true, true⟩ (outputPayload "s1" "x")).2
    = [Emit.toClient "A" "output" (outputPayload "s1" "x"),
       Emit.toClient "U" "output" (outputPayload "s1" "x")] := by decide

/-- Number of `toClient` emissions in `es` delivering an event named `ev`
(with any payload) to connection `cid`. -/
def countEventTo (es : List Emit) (cid : String) (ev : String) : Nat :=
  es.countP (fun e =>
    match e with
    | Emit.toClient c n _ => c == cid && n == ev
    | _ => false)

theorem mem_setAdd_self (s : List String) (x : String) : x ∈ setAdd s x := by
  unfold setAdd
  split
  · assumption
  · exact List.mem_cons_self x s

theorem not_mem_setDelete_self (s : List String) (x : String) :
    x ∉ setDelete s x := by
  unfold setDelete
  intro h
  have := List.of_mem_filter h
  simp at this

theorem forwardControl_fst (ev : String) (st : RelayState) (cid : String) (data : JsVal) :
    (forwardControl ev st cid data).1 = st := by
  unfold forwardControl
  split
  · rfl
  · split <;> rfl

theorem forwardControl_cases (ev : String) (st : RelayState) (cid : String) (data : JsVal) :
    forwardControl ev st cid data = (st, []) ∨
    forwardControl ev st cid data = (st, [Emit.toUpstream ev data]) := by
  unfold forwardControl
  split
  · exact Or.inl rfl
  · split
    · exact Or.inr rfl
    · exact Or.inl rfl

theorem countDelivery_broadcast (st : RelayState) (ev : String) (p : JsVal)
    (cid : String) (hn : st.openConnections.Nodup) (h : cid ∈ st.openConnections) :
    countDelivery (broadcast st ev p) cid ev p = 1 := by
  unfold countDelivery broadcast
  rw [List.count_map_of_injective st.openConnections
      (fun c => Emit.toClient c ev p)
      (fun a b hab => by injection hab) cid]
  exact List.count_eq_one_of_mem hn h

theorem jsGetProp_of_ne_undef (v : JsVal) (k : String) (hv : v ≠ JsVal.undef) :
    jsGetProp v k = Except.ok (getField v k) := by
  cases v with
  | undef => exact absurd rfl hv
  | str s => rfl
  | num n => rfl
  | bool b => rfl
  | obj fs => rfl

theorem handleAuthenticate_of_defined (st : RelayState) (cid : String) (data : JsVal)
    (hdef : data ≠ JsVal.undef) :
    handleAuthenticate st cid data =
      if getField data "password" = JsPrim.str PASSWORD then
        Except.ok
          ({ st with authenticatedClients := setAdd st.authenticatedClients cid },
           [Emit.toClient cid "auth_success" JsVal.undef])
      else
        Except.ok
          (st,
           [Emit.toClient cid "auth_failed" (JsVal.obj [("message", JsPrim.str "Invalid password")]),
            Emit.disconnectClient cid]) := by
  unfold handleAuthenticate
  rw [jsGetProp_of_ne_undef data "password" hdef]

/-- An `authenticate` with no payload (`socket.emit('authenticate')`)
makes the source throw an uncaught TypeError at `data.password`
(src/index.js line 408) before emitting anything: the handler yields the
error outcome with no emission at all. -/
theorem handleAuthenticate_undef_throws (st : RelayState) (cid : String) :
    handleAuthenticate st cid JsVal.undef = Except.error () :=
  rfl

/-- C1 (counterexample): the relay relays `output` events with
`io.emit`, which delivers to every open downstream connection — here the
open connection `U` is not in the authorization set, yet it receives the
`output` event, refuting "an unauthenticated connection receives no
`output` events". -/
theorem output_reaches_unauthenticated :
    Emit.toClient "U" "output" (outputPayload "s1" "file1")
      ∈ (handleTermuxOutput (RelayState.mk ["A", "U"] ["A"] true true)
          (outputPayload "s1" "file1")).2 ∧
    "U" ∉ (RelayState.mk ["A", "U"] ["A"] true true).authenticatedClients := by
  decide

/-- C1 (amended): every `output` event received from the upstream backend
is broadcast exactly once to every currently-open downstream connection —
in particular to every member of the authorization set that is open — with
no regard to authentication, and the relay state is unchanged. -/
theorem output_broadcast_every_open (st : RelayState) (data : JsVal) (cid : String)
    (hn : st.openConnections.Nodup) (h : cid ∈ st.openConnections) :
    (handleTermuxOutput st data).1 = st ∧
    countDelivery (handleTermuxOutput st data).2 cid "output" data = 1 :=
  ⟨rfl, countDelivery_broadcast st "output" data cid hn h⟩

/-- C1 witness: a concrete two-connection state in which the open,
unauthenticated connection `U` receives the broadcast exactly once. -/
theorem output_broadcast_every_open_witness :
    (handleTermuxOutput (RelayState.mk ["A", "U"] ["A"] true true)
        (outputPayload "s1" "file1")).1 = RelayState.mk ["A", "U"] ["A"] true true ∧
    countDelivery
      (handleTermuxOutput (RelayState.mk ["A", "U"] ["A"] true true)
        (outputPayload "s1" "file1")).2
      "U" "output" (outputPayload "s1" "file1") = 1 :=
  output_broadcast_every_open (RelayState.mk ["A", "U"] ["A"] true true)
    (outputPayload "s1" "file1") "U" (by decide) (by decide)

/-- C2: a downstream connection that is not in the authorization set when
one of the five control events is handled has the event silently ignored:
the handler changes no state and performs no emission at all — nothing is
forwarded upstream and no error event is sent back to the sender. -/
theorem unauthenticated_control_ignored (st : RelayState) (cid : String) (data : JsVal)
    (h : cid ∉ st.authenticatedClients) :
    handleNewSession st cid data = (st, []) ∧
    handleInput st cid data = (st, []) ∧
    handleResize st cid data = (st, []) ∧
    handleSignal st cid data = (st, []) ∧
    handleCloseSession st cid data = (st, []) := by
  unfold handleNewSession handleInput handleResize handleSignal handleCloseSession
    forwardControl
  simp [h]

/-- C2 witness: an unauthenticated sender's `input` with the backend
connected is dropped with no response. -/
theorem unauthenticated_control_ignored_witness :
    handleInput (RelayState.mk ["U"] [] true true) "U" (inputPayload "s1" "ls")
      = (RelayState.mk ["U"] [] true true, []) :=
  (unauthenticated_control_ignored (RelayState.mk ["U"] [] true true) "U"
    (inputPayload "s1" "ls") (by decide)).2.1

/-- C3: on any `authenticate` that presents a credential (a defined
payload — an undefined one makes the source throw at `data.password`
before emitting, see `handleAuthenticate_undef_throws`): with the correct
credential the handler completes normally, the sender joins the
authorization set and receives exactly one `auth_success`, zero
`auth_failed`, and no disconnect; with an incorrect credential it
completes normally with exactly one `auth_failed`, zero `auth_success`,
a disconnect, and the state unchanged. -/
theorem authenticate_exactly_one_response (st : RelayState) (cid : String) (data : JsVal)
    (hdef : data ≠ JsVal.undef) :
    (getField data "password" = JsPrim.str PASSWORD →
      ∃ st2 es, handleAuthenticate st cid data = Except.ok (st2, es) ∧
        cid ∈ st2.authenticatedClients ∧
        countEventTo es cid "auth_success" = 1 ∧
        countEventTo es cid "auth_failed" = 0 ∧
        Emit.disconnectClient cid ∉ es) ∧
    (getField data "password" ≠ JsPrim.str PASSWORD →
      ∃ st2 es, handleAuthenticate st cid data = Except.ok (st2, es) ∧
        countEventTo es cid "auth_failed" = 1 ∧
        countEventTo es cid "auth_success" = 0 ∧
        Emit.disconnectClient cid ∈ es ∧
        st2 = st) := by
  rw [handleAuthenticate_of_defined st cid data hdef]
  constructor
  · intro h
    rw [if_pos h]
    refine ⟨_, _, rfl, mem_setAdd_self st.authenticatedClients cid, ?_, ?_, ?_⟩ <;>
      simp [countEventTo]
  · intro h
    rw [if_neg h]
    refine ⟨_, _, rfl, ?_, ?_, ?_, rfl⟩ <;> simp [countEventTo]

/-- C3 witness: the correct password `123456789` yields exactly one
`auth_success`; the wrong password `wrong` yields exactly one
`auth_failed` and a disconnect. -/
theorem authenticate_exactly_one_response_witness :
    (∃ st2 es, handleAuthenticate (RelayState.mk ["A"] [] true true) "A"
        (JsVal.obj [("password", JsPrim.str "123456789")]) = Except.ok (st2, es) ∧
      "A" ∈ st2.authenticatedClients ∧
      countEventTo es "A" "auth_success" = 1 ∧
      countEventTo es "A" "auth_failed" = 0 ∧
      Emit.disconnectClient "A" ∉ es) ∧
    (∃ st2 es, handleAuthenticate (RelayState.mk ["B"] [] true true) "B"
        (JsVal.obj [("password", JsPrim.str "wrong")]) = Except.ok (st2, es) ∧
      countEventTo es "B" "auth_failed" = 1 ∧
      countEventTo es "B" "auth_success" = 0 ∧
      Emit.disconnectClient "B" ∈ es ∧
      st2 = RelayState.mk ["B"] [] true true) :=
  ⟨(authenticate_exactly_one_response (RelayState.mk ["A"] [] true true) "A"
      (JsVal.obj [("password", JsPrim.str "123456789")]) (by decide)).1 (by decide),
   (authenticate_exactly_one_response (RelayState.mk ["B"] [] true true) "B"
      (JsVal.obj [("password", JsPrim.str "wrong")]) (by decide)).2 (by decide)⟩

/-- C4 (counterexample): handling `new_session` for session id `abc` from
an authenticated sender (backend connected) leaves the relay state exactly
unchanged and no component of the state records `abc` — nothing is
registered anywhere — while the spec-modelled Session Registry would
contain `abc` after its `add`. -/
theorem new_session_registers_nothing :
    (handleNewSession (RelayState.mk ["A"] ["A"] true true) "A"
        (newSessionPayload "abc")).1 = RelayState.mk ["A"] ["A"] true true ∧
    stateMentions (handleNewSession (RelayState.mk ["A"] ["A"] true true) "A"
        (newSessionPayload "abc")).1 "abc" = false ∧
    specRegistryHas (specRegistryAdd [] "abc") "abc" = true := by
  decide

/-- C4 (amended): the relay keeps no Session Registry at all:
`new_session{s}` followed by `close_session{s}` from an authenticated
sender leaves the relay state exactly equal to the initial state, so in
particular no state component ends up containing `s` (trivially, whatever
did not mention `s` before still does not). -/
theorem session_roundtrip_no_state (st : RelayState) (cid s : String)
    (h : cid ∈ st.authenticatedClients) :
    (handleCloseSession (handleNewSession st cid (newSessionPayload s)).1 cid
        (closeSessionPayload s)).1 = st ∧
    (stateMentions st s = false →
      stateMentions (handleCloseSession (handleNewSession st cid (newSessionPayload s)).1 cid
        (closeSessionPayload s)).1 s = false) := by
  have h1 : (handleNewSession st cid (newSessionPayload s)).1 = st :=
    forwardControl_fst "new_session" st cid (newSessionPayload s)
  have h2 : (handleCloseSession (handleNewSession st cid (newSessionPayload s)).1 cid
      (closeSessionPayload s)).1 = (handleNewSession st cid (newSessionPayload s)).1 :=
    forwardControl_fst "close_session" _ cid (closeSessionPayload s)
  rw [h2, h1]
  exact ⟨rfl, fun hm => hm⟩

/-- C4 witness: the concrete round trip on session id `abc` from
authenticated client `A`. -/
theorem session_roundtrip_no_state_witness :
    (handleCloseSession
        (handleNewSession (RelayState.mk ["A"] ["A"] true true) "A"
          (newSessionPayload "abc")).1 "A"
        (closeSessionPayload "abc")).1 = RelayState.mk ["A"] ["A"] true true ∧
    (stateMentions (RelayState.mk ["A"] ["A"] true true) "abc" = false →
      stateMentions (handleCloseSession
        (handleNewSession (RelayState.mk ["A"] ["A"] true true) "A"
          (newSessionPayload "abc")).1 "A"
        (closeSessionPayload "abc")).1 "abc" = false) :=
  session_roundtrip_no_state (RelayState.mk ["A"] ["A"] true true) "A" "abc" (by decide)

/-- C5: whenever the upstream link is not connected, each of the five
control handlers is a no-op for every sender and payload: no emission is
performed (the event is dropped, nothing is surfaced to the caller) and
the relay state — the upstream link state included — is unchanged. -/
theorem send_disconnected_noop (st : RelayState) (cid : String) (data : JsVal)
    (h : st.termuxConnected = false) :
    handleNewSession st cid data = (st, []) ∧
    handleInput st cid data = (st, []) ∧
    handleResize st cid data = (st, []) ∧
    handleSignal st cid data = (st, []) ∧
    handleCloseSession st cid data = (st, []) := by
  unfold handleNewSession handleInput handleResize handleSignal handleCloseSession
    forwardControl
  simp [h]

/-- C5 witness: an authenticated sender's `input` while the backend is
disconnected is dropped without any state change or response. -/
theorem send_disconnected_noop_witness :
    handleInput (RelayState.mk ["A"] ["A"] true false) "A" (inputPayload "s1" "ls")
      = (RelayState.mk ["A"] ["A"] true false, []) :=
  (send_disconnected_noop (RelayState.mk ["A"] ["A"] true false) "A"
    (inputPayload "s1" "ls") rfl).2.1

/-- C6: on the upstream link's transition into `connected` the relay sets
the link state accordingly and delivers exactly one
`backend_status{connected:true}` to every currently-open downstream
connection, authenticated or not; symmetrically with `connected:false` on
the transition into `disconnected`. -/
theorem backend_status_broadcast (st : RelayState) (cid : String)
    (hn : st.openConnections.Nodup) (h : cid ∈ st.openConnections) :
    (handleTermuxConnect st).1 = { st with termuxConnected := true } ∧
    countDelivery (handleTermuxConnect st).2 cid "backend_status"
      (JsVal.obj [("connected", JsPrim.bool true)]) = 1 ∧
    (handleTermuxDisconnect st).1 = { st with termuxConnected := false } ∧
    countDelivery (handleTermuxDisconnect st).2 cid "backend_status"
      (JsVal.obj [("connected", JsPrim.bool false)]) = 1 :=
  ⟨rfl,
   countDelivery_broadcast st "backend_status"
     (JsVal.obj [("connected", JsPrim.bool true)]) cid hn h,
   rfl,
   countDelivery_broadcast st "backend_status"
     (JsVal.obj [("connected", JsPrim.bool false)]) cid hn h⟩

/-- C6 witness: the open but unauthenticated connection `U` receives
exactly one `backend_status` on each transition. -/
theorem backend_status_broadcast_witness :
    (handleTermuxConnect (RelayState.mk ["A", "U"] ["A"] true false)).1
      = RelayState.mk ["A", "U"] ["A"] true true ∧
    countDelivery (handleTermuxConnect (RelayState.mk ["A", "U"] ["A"] true false)).2
      "U" "backend_status" (JsVal.obj [("connected", JsPrim.bool true)]) = 1 ∧
    (handleTermuxDisconnect (RelayState.mk ["A", "U"] ["A"] true false)).1
      = RelayState.mk ["A", "U"] ["A"] true false ∧
    countDelivery (handleTermuxDisconnect (RelayState.mk ["A", "U"] ["A"] true false)).2
      "U" "backend_status" (JsVal.obj [("connected", JsPrim.bool false)]) = 1 :=
  backend_status_broadcast (RelayState.mk ["A", "U"] ["A"] true false) "U"
    (by decide) (by decide)

/-- C7: when the sender is authenticated and the upstream link is
connected, each of the five control handlers forwards the received payload
upstream verbatim — the emitted payload is exactly the received `data`,
whatever it is, with no modification, filtering, or Session Registry
check — and the relay state is unchanged. -/
theorem control_forward_verbatim (st : RelayState) (cid : String) (data : JsVal)
    (hauth : cid ∈ st.authenticatedClients)
    (hstart : st.termuxStarted = true) (hconn : st.termuxConnected = true) :
    handleNewSession st cid data = (st, [Emit.toUpstream "new_session" data]) ∧
    handleInput st cid data = (st, [Emit.toUpstream "input" data]) ∧
    handleResize st cid data = (st, [Emit.toUpstream "resize" data]) ∧
    handleSignal st cid data = (st, [Emit.toUpstream "signal" data]) ∧
    handleCloseSession st cid data = (st, [Emit.toUpstream "close_session" data]) := by
  unfold handleNewSession handleInput handleResize handleSignal handleCloseSession
    forwardControl
  simp [hauth, hstart, hconn]

/-- C7 witness: an authenticated `resize` with the backend connected is
forwarded upstream with the identical payload. -/
theorem control_forward_verbatim_witness :
    handleResize (RelayState.mk ["A"] ["A"] true true) "A" (resizePayload "s1" 24 80)
      = (RelayState.mk ["A"] ["A"] true true,
         [Emit.toUpstream "resize" (resizePayload "s1" 24 80)]) :=
  (control_forward_verbatim (RelayState.mk ["A"] ["A"] true true) "A"
    (resizePayload "s1" 24 80) (by decide) rfl rfl).2.2.1

/-- C8 (counterexample): the payload the embedded frontend sends with
`input` carries the session identifier under the field name
`session_id`, not `sessionId` — the claimed field name is absent. -/
theorem session_field_name_mismatch :
    "sessionId" ∉ payloadKeys (inputPayload "s1" "ls") ∧
    "session_id" ∈ payloadKeys (inputPayload "s1" "ls") := by
  decide

/-- C8 (amended): every control payload the embedded frontend constructs,
and the `output` payload it consumes, names the session identifier field
`session_id` (snake case); the remaining fields are named `data`, `rows`,
`cols`, `signal` as listed, and the frontend's `output` handler looks the
terminal up under the `session_id` key. -/
theorem payload_field_names (sid d : String) (rows cols : Int) :
    payloadKeys (newSessionPayload sid) = ["session_id"] ∧
    payloadKeys (inputPayload sid d) = ["session_id", "data"] ∧
    payloadKeys (resizePayload sid rows cols) = ["session_id", "rows", "cols"] ∧
    payloadKeys (signalPayload sid) = ["session_id", "signal"] ∧
    payloadKeys (closeSessionPayload sid) = ["session_id"] ∧
    frontendOutputLookup (outputPayload sid d) = JsPrim.str sid := by
  refine ⟨rfl, rfl, rfl, rfl, rfl, ?_⟩
  simp [frontendOutputLookup, outputPayload, getField, List.lookup]

/-- C9: a connection already in the authorization set that sends a further
`authenticate` whose defined payload carries a wrong credential (an
undefined payload makes the source throw at `data.password` instead, see
`handleAuthenticate_undef_throws`) receives exactly one `auth_failed` and
a disconnect, and once the resulting disconnect is handled the connection
is no longer in the authorization set. -/
theorem reauth_failure_revokes (st : RelayState) (cid : String) (data : JsVal)
    (hmem : cid ∈ st.authenticatedClients)
    (hdef : data ≠ JsVal.undef)
    (hbad : getField data "password" ≠ JsPrim.str PASSWORD) :
    ∃ st2 es, handleAuthenticate st cid data = Except.ok (st2, es) ∧
      countEventTo es cid "auth_failed" = 1 ∧
      Emit.disconnectClient cid ∈ es ∧
      cid ∉ (handleDisconnect st2 cid).authenticatedClients := by
  rw [handleAuthenticate_of_defined st cid data hdef, if_neg hbad]
  refine ⟨_, _, rfl, by simp [countEventTo], by simp, ?_⟩
  exact not_mem_setDelete_self st.authenticatedClients cid

/-- C9 witness: the authenticated client `A` re-authenticates with the
wrong password `oops` and loses membership after its disconnect. -/
theorem reauth_failure_revokes_witness :
    ∃ st2 es, handleAuthenticate (RelayState.mk ["A"] ["A"] true true) "A"
        (JsVal.obj [("password", JsPrim.str "oops")]) = Except.ok (st2, es) ∧
      countEventTo es "A" "auth_failed" = 1 ∧
      Emit.disconnectClient "A" ∈ es ∧
      "A" ∉ (handleDisconnect st2 "A").authenticatedClients :=
  reauth_failure_revokes (RelayState.mk ["A"] ["A"] true true) "A"
    (JsVal.obj [("password", JsPrim.str "oops")]) (by decide) (by decide) (by decide)

/-- C10: for every payload value whatsoever — `undefined` and malformed
objects included — each of the five control handlers terminates with the
state unchanged and either drops the event or forwards that payload
upstream unchanged; no field of the payload is ever read, so no payload
can make the handler fail. -/
theorem control_payload_opaque (st : RelayState) (cid : String) (data : JsVal) :
    (handleNewSession st cid data = (st, []) ∨
      handleNewSession st cid data = (st, [Emit.toUpstream "new_session" data])) ∧
    (handleInput st cid data = (st, []) ∨
      handleInput st cid data = (st, [Emit.toUpstream "input" data])) ∧
    (handleResize st cid data = (st, []) ∨
      handleResize st cid data = (st, [Emit.toUpstream "resize" data])) ∧
    (handleSignal st cid data = (st, []) ∨
      handleSignal st cid data = (st, [Emit.toUpstream "signal" data])) ∧
    (handleCloseSession st cid data = (st, []) ∨
      handleCloseSession st cid data = (st, [Emit.toUpstream "close_session" data])) :=
  ⟨forwardControl_cases "new_session" st cid data,
   forwardControl_cases "input" st cid data,
   forwardControl_cases "resize" st cid data,
   forwardControl_cases "signal" st cid data,
   forwardControl_cases "close_session" st cid data⟩
